import Mathlib

/-!
Shallow embedding of the ESPP2 repository (espp2/datamodels.py,
espp2/plugins/pickle.py, espp2/web/main.py, espp2/espp2.py) in Lean 4.

Python `Decimal` values are modelled as exact rationals (`Rat`); dates are
modelled by their ISO string rendering, since every use in the embedded code
goes through `str(date)` / `strftime` or treats the date as an opaque lookup
key.  The market reference service (`espp2.fmv`, not part of the embedded
sources) is passed in as an explicit lookup function wherever the code calls
`fmv.get_currency` / `fmv.get_dividend`.
-/

namespace ESPP2

/- ===== espp2/datamodels.py : Amount ===== -/

/-- `Amount` (datamodels.py lines 34-39): currency code, NOK exchange rate,
NOK value and native value. -/
structure Amount where
  currency : String
  nok_exchange_rate : Rat
  nok_value : Rat
  value : Rat
deriving DecidableEq

/-- `Amount.__init__`, first branch (lines 43-46): `amountdate` given and no
explicit `nok_exchange_rate` in the data — the exchange rate is resolved
through `fmv.get_currency(currency, amountdate)` and
`nok_value = Decimal(str(value)) * exchange_rate`. -/
def Amount.mkFromDate (getCurrency : String → String → Rat)
    (amountdate currency : String) (value : Rat) : Amount :=
  let exchange_rate := getCurrency currency amountdate
  { currency := currency
    nok_exchange_rate := exchange_rate
    nok_value := value * exchange_rate
    value := value }

/-- `Amount.__init__`, second branch (lines 47-51): no data at all gives the
sentinel "NA" amount with zero value and zero rate. -/
def Amount.mkEmpty : Amount :=
  { currency := "NA", nok_exchange_rate := 0, nok_value := 0, value := 0 }

/-- `Amount.__mul__` (lines 61-65): copy of `self` with `value` and
`nok_value` both multiplied by `qty`. -/
def Amount.mul (self : Amount) (qty : Rat) : Amount :=
  { self with value := self.value * qty, nok_value := self.nok_value * qty }

/-- `Amount.__add__` (lines 67-71): copy of `self` with `value` and
`nok_value` summed component-wise; `currency` and `nok_exchange_rate` come
from the copy of `self`, and no currency-equality check is made. -/
def Amount.add (self other : Amount) : Amount :=
  { self with
    value := self.value + other.value
    nok_value := self.nok_value + other.nok_value }

/-- The `other` operand of `Amount.__radd__`: either a Python int or another
`Amount`. -/
inductive PyOperand where
  | intVal : Int → PyOperand
  | amountVal : Amount → PyOperand
deriving DecidableEq

/-- `Amount.__radd__` (lines 72-78): integer zero returns `self` unchanged;
any other int falls through to `other.value` and fails with an
AttributeError; an `Amount` operand is summed component-wise. -/
def Amount.radd (self : Amount) : PyOperand → Except String Amount
  | .intVal n =>
      if n = 0 then .ok self
      else .error "AttributeError: int object has no attribute value"
  | .amountVal other =>
      .ok { self with
            value := self.value + other.value
            nok_value := self.nok_value + other.nok_value }

/- ===== espp2/datamodels.py : sign-constrained amounts ===== -/

/-- `PositiveAmount` (lines 80-87): the validator on `value` and `nok_value`
raises on any negative field.  Pydantic validates the fields in declaration
order of `Amount` (currency, nok_exchange_rate, nok_value, value). -/
def PositiveAmount.make (currency : String) (nok_exchange_rate nok_value value : Rat) :
    Except String Amount :=
  if nok_value < 0 then .error "Negative value"
  else if value < 0 then .error "Negative value"
  else .ok { currency := currency, nok_exchange_rate := nok_exchange_rate,
             nok_value := nok_value, value := value }

/-- `NegativeAmount` (lines 88-95): the validator on `value` and `nok_value`
raises on any positive field. -/
def NegativeAmount.make (currency : String) (nok_exchange_rate nok_value value : Rat) :
    Except String Amount :=
  if nok_value > 0 then .error "Must be negative value"
  else if value > 0 then .error "Must be negative value"
  else .ok { currency := currency, nok_exchange_rate := nok_exchange_rate,
             nok_value := nok_value, value := value }

/- ===== espp2/datamodels.py : id assignment ===== -/

/-- The process-wide `duplicates` map (line 97), modelled as a total counter
function; a key absent from the Python dict is a key mapped to 0 here, so
the first construction for a key yields counter 1 exactly as
`duplicates[d] = 1` does. -/
structure IdState where
  duplicates : String → Nat

/-- The empty `duplicates` map at process start. -/
def IdState.initial : IdState := ⟨fun _ => 0⟩

/-- `get_id` (lines 98-109): key is `source + str(date)`; its counter is
incremented (first value 1); the id is
`"<type> <date>[ <qty>]:<counter>"`.  `qty` is the already-stringified
`str(values['qty'])` when the entry has a `qty` field. -/
def get_id (st : IdState) (source dateStr typeStr : String) (qty : Option String) :
    String × IdState :=
  let d := source ++ dateStr
  let newCount := st.duplicates d + 1
  let st2 : IdState := ⟨fun k => if k = d then newCount else st.duplicates k⟩
  let id1 := typeStr ++ " " ++ dateStr
  let id2 := match qty with
    | some q => id1 ++ " " ++ q
    | none => id1
  (id2 ++ ":" ++ toString newCount, st2)

/-- The part of a generated id before the trailing `:<counter>`. -/
def idStem (typeStr dateStr : String) (qty : Option String) : String :=
  match qty with
  | some q => typeStr ++ " " ++ dateStr ++ " " ++ q
  | none => typeStr ++ " " ++ dateStr

/-- Drop the trailing `:<counter>` from a generated id (everything from the
last colon on). -/
def stripCounter (s : String) : String :=
  let r := s.data.reverse
  let r2 := (r.dropWhile (fun c => c ≠ ':')).drop 1
  String.mk r2.reverse

/- ===== espp2/datamodels.py : transaction entries ===== -/

/-- `EntryTypeEnum` (lines 17-29): the closed eleven-member tag enumeration. -/
inductive EntryTypeEnum where
  | BUY | DEPOSIT | TAX | TAXSUB | DIVIDEND | DIVIDEND_REINV
  | WIRE | SELL | TRANSFER | FEE | CASHADJUST
deriving DecidableEq

/-- `str(EntryTypeEnum.X)` (lines 31-32). -/
def EntryTypeEnum.toStr : EntryTypeEnum → String
  | .BUY => "BUY"
  | .DEPOSIT => "DEPOSIT"
  | .TAX => "TAX"
  | .TAXSUB => "TAXSUB"
  | .DIVIDEND => "DIVIDEND"
  | .DIVIDEND_REINV => "DIVIDEND_REINV"
  | .WIRE => "WIRE"
  | .SELL => "SELL"
  | .TRANSFER => "TRANSFER"
  | .FEE => "FEE"
  | .CASHADJUST => "CASHADJUST"

/-- `Buy` (lines 117-135); the `type` field is the literal tag BUY, so it is
not stored. -/
structure Buy where
  date : String
  symbol : String
  qty : Rat
  purchase_price : Amount
  source : String
  id : String
deriving DecidableEq

/-- `Deposit` (lines 137-156). -/
structure Deposit where
  date : String
  qty : Rat
  symbol : String
  description : String
  purchase_price : Amount
  purchase_date : Option String
  source : String
  id : String
deriving DecidableEq

/-- `Tax` (lines 158-166): `amount` is a `NegativeAmount`. -/
structure Tax where
  date : String
  symbol : String
  description : String
  amount : Amount
  source : String
  id : String
deriving DecidableEq

/-- `Taxsub` (lines 168-176). -/
structure Taxsub where
  date : String
  symbol : String
  description : String
  amount : Amount
  source : String
  id : String
deriving DecidableEq

/-- `Dividend` (lines 178-196), with the extra fields `exdate`,
`declarationdate` and `dividend_dps` that `check_dividend_data` stores into
the values dict (kept by `Extra.allow`). -/
structure Dividend where
  date : String
  symbol : String
  amount : Option Amount
  amount_ps : Option Amount
  source : String
  id : String
  exdate : String
  declarationdate : String
  dividend_dps : Rat
deriving DecidableEq

/-- `Dividend_Reinv` (lines 199-207). -/
structure Dividend_Reinv where
  date : String
  symbol : String
  amount : Amount
  description : String
  source : String
  id : String
deriving DecidableEq

/-- `Wire` (lines 209-217). -/
structure Wire where
  date : String
  amount : Amount
  description : String
  fee : Option Amount
  source : String
  id : String
deriving DecidableEq

/-- `Sell` (lines 219-229): `qty` is `condecimal(lt=0)`. -/
structure Sell where
  date : String
  symbol : String
  qty : Rat
  fee : Option Amount
  amount : Amount
  description : String
  source : String
  id : String
deriving DecidableEq

/-- `Fee` (lines 231-237). -/
structure Fee where
  date : String
  amount : Amount
  source : String
  id : String
deriving DecidableEq

/-- `Transfer` (lines 239-248). -/
structure Transfer where
  date : String
  symbol : String
  qty : Rat
  fee : Option Amount
  source : String
  id : String
deriving DecidableEq

/-- `Cashadjust` (lines 250-255): its declared fields are only `type`,
`date`, `amount` and `description` — there is no `source` and no `id`
field. -/
structure Cashadjust where
  date : String
  amount : Amount
  description : String
deriving DecidableEq

/-- The discriminated union `Entry` (lines 257-258). -/
inductive Entry where
  | buy : Buy → Entry
  | deposit : Deposit → Entry
  | tax : Tax → Entry
  | taxsub : Taxsub → Entry
  | dividend : Dividend → Entry
  | dividendReinv : Dividend_Reinv → Entry
  | wire : Wire → Entry
  | sell : Sell → Entry
  | transfer : Transfer → Entry
  | fee : Fee → Entry
  | cashadjust : Cashadjust → Entry
deriving DecidableEq

/-- The literal `type` tag of each union member. -/
def Entry.entryType : Entry → EntryTypeEnum
  | .buy _ => .BUY
  | .deposit _ => .DEPOSIT
  | .tax _ => .TAX
  | .taxsub _ => .TAXSUB
  | .dividend _ => .DIVIDEND
  | .dividendReinv _ => .DIVIDEND_REINV
  | .wire _ => .WIRE
  | .sell _ => .SELL
  | .transfer _ => .TRANSFER
  | .fee _ => .FEE
  | .cashadjust _ => .CASHADJUST

/-- The `date` field, present on every union member. -/
def Entry.entryDate : Entry → String
  | .buy r => r.date
  | .deposit r => r.date
  | .tax r => r.date
  | .taxsub r => r.date
  | .dividend r => r.date
  | .dividendReinv r => r.date
  | .wire r => r.date
  | .sell r => r.date
  | .transfer r => r.date
  | .fee r => r.date
  | .cashadjust r => r.date

/-- The `source` field where the member declares one; `Cashadjust` declares
none. -/
def Entry.entrySource : Entry → Option String
  | .buy r => some r.source
  | .deposit r => some r.source
  | .tax r => some r.source
  | .taxsub r => some r.source
  | .dividend r => some r.source
  | .dividendReinv r => some r.source
  | .wire r => some r.source
  | .sell r => some r.source
  | .transfer r => some r.source
  | .fee r => some r.source
  | .cashadjust _ => none

/-- The `id` field where the member declares one; `Cashadjust` declares
none, so no id is ever synthesized for it. -/
def Entry.entryId : Entry → Option String
  | .buy r => some r.id
  | .deposit r => some r.id
  | .tax r => some r.id
  | .taxsub r => some r.id
  | .dividend r => some r.id
  | .dividendReinv r => some r.id
  | .wire r => some r.id
  | .sell r => some r.id
  | .transfer r => some r.id
  | .fee r => some r.id
  | .cashadjust _ => none

/-- Whether the entry is the `Cashadjust` variant. -/
def Entry.isCashadjust : Entry → Bool
  | .cashadjust _ => true
  | _ => false

/- ===== constructors with validation ===== -/

/-- Constructing a `Tax` entry (lines 158-166): pydantic validates the
`NegativeAmount` field, then the `id` validator (lines 112-115) synthesizes
the id via `get_id`; a Tax entry has no `qty` field. -/
def Tax.construct (st : IdState) (dateStr symbol description : String)
    (amount : Amount) (source : String) : Except String (Tax × IdState) := do
  let a ← NegativeAmount.make amount.currency amount.nok_exchange_rate
            amount.nok_value amount.value
  let (id, st2) := get_id st source dateStr (EntryTypeEnum.TAX).toStr none
  .ok ({ date := dateStr, symbol := symbol, description := description,
         amount := a, source := source, id := id }, st2)

/-- Modelled from the spec: `fmv.get_dividend(symbol, date)` of the Market &
Reference-Data Service (espp2/fmv.py, not part of the embedded sources) —
returns the (ex-dividend date, declaration date, dividend-per-share) triple
for the key, and fails with a MissingData error when no data is available
for that symbol/date.  The underlying dividend table is passed in as
`divData`. -/
def get_dividend (divData : String → String → Option (String × String × Rat))
    (symbol dateStr : String) : Except String (String × String × Rat) :=
  match divData symbol dateStr with
  | some r => .ok r
  | none => .error "MissingData"

/-- Constructing a `Dividend` entry (lines 178-196): the `check_dividend_data`
root validator (pre=True) first performs the `fmv.get_dividend` lookup and
stores `exdate`, `declarationdate` and `dividend_dps` into the values; then
the optional `PositiveAmount` fields are validated and the id synthesized
(a Dividend has no `qty` field). -/
def Dividend.construct (divData : String → String → Option (String × String × Rat))
    (st : IdState) (dateStr symbol : String)
    (amount amount_ps : Option Amount) (source : String) :
    Except String (Dividend × IdState) := do
  let (exdate, declarationdate, dividend_dps) ← get_dividend divData symbol dateStr
  let amountV ← match amount with
    | none => pure none
    | some a => do
        let aOk ← PositiveAmount.make a.currency a.nok_exchange_rate a.nok_value a.value
        pure (some aOk)
  let amountPsV ← match amount_ps with
    | none => pure none
    | some a => do
        let aOk ← PositiveAmount.make a.currency a.nok_exchange_rate a.nok_value a.value
        pure (some aOk)
  let (id, st2) := get_id st source dateStr (EntryTypeEnum.DIVIDEND).toStr none
  .ok ({ date := dateStr, symbol := symbol, amount := amountV,
         amount_ps := amountPsV, source := source, id := id,
         exdate := exdate, declarationdate := declarationdate,
         dividend_dps := dividend_dps }, st2)

/- ===== espp2/plugins/pickle.py ===== -/

/-- The objects `UnpicklerESPP.find_class` may hand back. -/
inductive PickleClass where
  | esppData
  | dateClass
  | codecsEncode
deriving DecidableEq

/-- `UnpicklerESPP.find_class` (pickle.py lines 49-65): allow the legacy
`ESPPData` holder under either historical module path, `datetime.date`, and
`_codecs.encode`; everything else raises `pickle.UnpicklingError` (the
Denied error). -/
def find_class (module name : String) : Except String PickleClass :=
  if module = "espp.esppdata" ∧ name = "ESPPData" then .ok .esppData
  else if module = "esppdata" ∧ name = "ESPPData" then .ok .esppData
  else if module = "datetime" ∧ name = "date" then .ok .dateClass
  else if module = "_codecs" ∧ name = "encode" then .ok .codecsEncode
  else .error ("module " ++ module ++ " name " ++ name ++ " is denied")

/-- `add_amount` (pickle.py lines 76-85): builds an amount dict with the
exchange rate resolved through `currency_converter.get_currency` on the
record's own date string, and `nok_value = Decimal(exch_rate) * amount`. -/
def add_amount (getCurrency : String → String → Rat)
    (dateStr currency : String) (amount : Rat) : Amount :=
  let exch_rate := getCurrency currency dateStr
  { currency := currency, nok_exchange_rate := exch_rate,
    nok_value := exch_rate * amount, value := amount }

/-- A legacy `TRANS` record as `do_trans` reads it: date, `fee`, `n` and
per-share `price`, all already converted through `Decimal`. -/
structure TransRecord where
  date : String
  fee : Rat
  n : Rat
  price : Rat
deriving DecidableEq

/-- A record emitted by `do_trans` into the module-level `records` list. -/
structure SellRec where
  date : String
  typeStr : String
  symbol : String
  qty : Rat
  description : String
  fee : Amount
  amount : Amount
deriving DecidableEq

/-- `do_trans` (pickle.py lines 120-141): total price is
`price * n`; a zero quantity produces no record and a warning log entry;
otherwise exactly one SELL record is appended with `qty = -n`, fee amount
`-fee` and amount `price * n` (both NOK-converted via `add_amount` at the
record's date in USD).  The result is the list of appended records paired
with the list of emitted warnings. -/
def do_trans (getCurrency : String → String → Rat) (record : TransRecord) :
    List SellRec × List String :=
  let fee := record.fee
  let n := record.n
  let price := record.price * n
  if n = 0 then
    ([], ["Zero quantity for sale, ignoring it"])
  else
    ([{ date := record.date, typeStr := "SELL", symbol := "CSCO",
        qty := -n, description := "",
        fee := add_amount getCurrency record.date "USD" (-fee),
        amount := add_amount getCurrency record.date "USD" price }], [])

/- ===== espp2/web/main.py ===== -/

/-- The payload FastAPI serves for a raised `HTTPException`. -/
structure HTTPErrorResponse where
  status_code : Nat
  detail : String
deriving DecidableEq

/-- `ESPPResponse` (datamodels.py lines 416-420), parametrized over the
report, holdings and summary payload types that `do_taxes` produces. -/
structure ESPPResponse (R H S : Type) where
  holdings : H
  tax_report : R
  summary : S

/-- `create_files` (web/main.py lines 24-52), the part around the `do_taxes`
call: the try block runs the tax computation; any exception is logged and
re-raised as `HTTPException(status_code=500, detail=str(e))`; on success the
full `ESPPResponse` is built from the returned report, holdings and
summary.  The outcome of the `do_taxes` call is passed in as an `Except`. -/
def create_files {R H S : Type} (taxResult : Except String (R × H × S)) :
    Except HTTPErrorResponse (ESPPResponse R H S) :=
  match taxResult with
  | .error e => .error { status_code := 500, detail := e }
  | .ok (report, holdings, summary) =>
      .ok { holdings := holdings, tax_report := report, summary := summary }

/- ===== espp2/espp2.py : the preheat-cache flag ===== -/

/-- A Python value a name can resolve to at the `preheat_cache()` call site. -/
inductive PyValue where
  | boolVal : Bool → PyValue
  | funcVal : String → PyValue
deriving DecidableEq

/-- The local scope of `main` (espp2.py lines 36-49): the parameter
`preheat_cache: bool = False` binds the name `preheat_cache` locally. -/
def localScope (preheatParam : Bool) (name : String) : Option PyValue :=
  if name = "preheat_cache" then some (.boolVal preheatParam) else none

/-- The module's global scope (espp2.py line 10):
`from espp2.main import ... preheat_cache ...` binds the name to the
reference-service preheat function. -/
def globalScope (name : String) : Option PyValue :=
  if name = "preheat_cache" then some (.funcVal "espp2.main.preheat_cache")
  else none

/-- Python name resolution inside `main`: locals shadow globals. -/
def lookupName (preheatParam : Bool) (name : String) : Option PyValue :=
  match localScope preheatParam name with
  | some v => some v
  | none => globalScope name

/-- Calling a resolved value: a function call returns the name of the
function that ran; calling a bool raises TypeError. -/
def callValue : PyValue → Except String String
  | .funcVal f => .ok f
  | .boolVal _ => .error "TypeError: bool object is not callable"

/-- `if preheat_cache: preheat_cache()` (espp2.py lines 62-63): when the
flag is false nothing runs (result `none`); when true, the name
`preheat_cache` is resolved and called, yielding either the name of the
function that ran or a raised error. -/
def preheatStep (preheatFlag : Bool) : Except String (Option String) :=
  if preheatFlag then
    match lookupName preheatFlag "preheat_cache" with
    | some v => (callValue v).map some
    | none => .error "NameError"
  else .ok none

/- ===== theorems ===== -/

/-- C1: an Amount constructed from a currency, date and value without an
explicit exchange rate has `nok_value = value * rate(currency, date)`, and
`amount * k` scales both `value` and `nok_value` by `k` for every rational
`k`, including negative `k`. -/
theorem c1_amount_invariant :
    ∀ (getCurrency : String → String → Rat) (amountdate currency : String) (value : Rat),
      (Amount.mkFromDate getCurrency amountdate currency value).nok_value
        = value * getCurrency currency amountdate
    ∧ ∀ (a : Amount) (k : Rat),
        (a.mul k).value = a.value * k ∧ (a.mul k).nok_value = a.nok_value * k :=
  fun _ _ _ _ => ⟨rfl, fun _ _ => ⟨rfl, rfl⟩⟩

/-- C10: `Amount.__add__` sums `value` and `nok_value` component-wise while
taking `currency` and `nok_exchange_rate` unchanged from the left operand,
with no currency-equality check (the statement holds for all pairs,
regardless of currencies); and the reflected addition with integer zero
returns the amount itself unchanged. -/
theorem c10_add_componentwise :
    ∀ a b : Amount,
      (Amount.add a b).value = a.value + b.value ∧
      (Amount.add a b).nok_value = a.nok_value + b.nok_value ∧
      (Amount.add a b).currency = a.currency ∧
      (Amount.add a b).nok_exchange_rate = a.nok_exchange_rate ∧
      Amount.radd a (.intVal 0) = .ok a := by
  intro a b
  refine ⟨rfl, rfl, rfl, rfl, ?_⟩
  simp [Amount.radd]

/-- C2: constructing a `PositiveAmount` with a negative `value` or
`nok_value` fails, constructing a `NegativeAmount` with a positive `value`
or `nok_value` fails, and constructing a `Tax` entry whose amount has
`value = 5` fails. -/
theorem c2_sign_constraints :
    ∀ (c : String) (r nv v : Rat) (st : IdState)
      (dateStr sym desc src : String) (am : Amount),
      (v < 0 ∨ nv < 0 → ∃ e, PositiveAmount.make c r nv v = .error e) ∧
      (v > 0 ∨ nv > 0 → ∃ e, NegativeAmount.make c r nv v = .error e) ∧
      (am.value = 5 → ∃ e, Tax.construct st dateStr sym desc am src = .error e) := by
  intro c r nv v st dateStr sym desc src am
  refine ⟨?_, ?_, ?_⟩
  · intro h
    by_cases hnv : nv < 0
    · exact ⟨"Negative value", by simp [PositiveAmount.make, hnv]⟩
    · have hv : v < 0 := h.resolve_right hnv
      exact ⟨"Negative value", by simp [PositiveAmount.make, hnv, hv]⟩
  · intro h
    by_cases hnv : nv > 0
    · exact ⟨"Must be negative value", by simp [NegativeAmount.make, hnv]⟩
    · have hv : v > 0 := h.resolve_right hnv
      exact ⟨"Must be negative value", by simp [NegativeAmount.make, hnv, hv]⟩
  · intro h5
    by_cases hnv : am.nok_value > 0
    · exact ⟨"Must be negative value",
        by simp [Tax.construct, NegativeAmount.make, hnv, Bind.bind, Except.bind]⟩
    · have hv : am.value > 0 := by rw [h5]; norm_num
      exact ⟨"Must be negative value",
        by simp [Tax.construct, NegativeAmount.make, hnv, hv, Bind.bind, Except.bind]⟩

/-- Witness for C2 at concrete inputs: a positive amount with value and
nok_value -1, a negative amount with value and nok_value 1, and a Tax whose
amount has value 5. -/
theorem c2_sign_constraints_witness :
    (∃ e, PositiveAmount.make "USD" 1 (-1) (-1) = .error e) ∧
    (∃ e, NegativeAmount.make "USD" 1 1 1 = .error e) ∧
    (∃ e, Tax.construct IdState.initial "2022-01-01" "CSCO" "tax" (Amount.mk "USD" 1 0 5) "test"
            = .error e) :=
  ⟨(c2_sign_constraints "USD" 1 (-1) (-1) IdState.initial "2022-01-01" "CSCO" "tax" "test"
      (Amount.mk "USD" 1 0 5)).1 (Or.inl (by norm_num)),
   (c2_sign_constraints "USD" 1 1 1 IdState.initial "2022-01-01" "CSCO" "tax" "test"
      (Amount.mk "USD" 1 0 5)).2.1 (Or.inl (by norm_num)),
   (c2_sign_constraints "USD" 1 1 1 IdState.initial "2022-01-01" "CSCO" "tax" "test"
      (Amount.mk "USD" 1 0 5)).2.2 rfl⟩

/-- C3 counterexample: two entries constructed with the same source
`"test"` and the same date `2022-01-01` but different types and qty fields
(a BUY with qty 5, then a SELL with no qty) get ids `"BUY 2022-01-01 5:1"`
and `"SELL 2022-01-01:2"`, which differ in more than the trailing counter:
the parts before the counter already differ. -/
theorem c3_counterexample :
    (get_id IdState.initial "test" "2022-01-01" "BUY" (some "5")).1
      = "BUY 2022-01-01 5:1" ∧
    (get_id (get_id IdState.initial "test" "2022-01-01" "BUY" (some "5")).2
       "test" "2022-01-01" "SELL" none).1 = "SELL 2022-01-01:2" ∧
    stripCounter "BUY 2022-01-01 5:1" ≠ stripCounter "SELL 2022-01-01:2" := by
  refine ⟨rfl, rfl, by decide⟩

/-- C3 amended: the counter keyed by `source + date` is incremented on
each construction (first value 1), the id is formatted as
`"<TYPE> <date>[ <qty>]:<counter>"`, and two entries constructed with the
same source, date, type AND qty field get ids that differ only in the
trailing counter, which is strictly increasing per (source, date) key in
construction order. -/
theorem c3_id_counter :
    ∀ (st : IdState) (source dateStr typeStr : String) (qty : Option String),
      (get_id st source dateStr typeStr qty).1
        = idStem typeStr dateStr qty ++ ":"
            ++ toString (st.duplicates (source ++ dateStr) + 1) ∧
      (get_id (get_id st source dateStr typeStr qty).2 source dateStr typeStr qty).1
        = idStem typeStr dateStr qty ++ ":"
            ++ toString (st.duplicates (source ++ dateStr) + 2) ∧
      (get_id st source dateStr typeStr qty).2.duplicates (source ++ dateStr)
        = st.duplicates (source ++ dateStr) + 1 ∧
      st.duplicates (source ++ dateStr) + 1 < st.duplicates (source ++ dateStr) + 2 := by
  intro st source dateStr typeStr qty
  cases qty <;> simp [get_id, idStem]

/-- C4: constructing a Dividend entry performs the reference lookup keyed
by symbol and date and stores the returned ex-dividend date, declaration
date and dividend-per-share on the instance; when the lookup finds no data
the whole construction fails with the MissingData error, so no Dividend
record exists without its per-share reference data. -/
theorem c4_dividend_enrichment :
    ∀ (divData : String → String → Option (String × String × Rat)) (st : IdState)
      (dateStr symbol : String) (amount amount_ps : Option Amount) (source : String),
      (∀ ex decl dps rec st2,
          divData symbol dateStr = some (ex, decl, dps) →
          Dividend.construct divData st dateStr symbol amount amount_ps source
            = .ok (rec, st2) →
          rec.exdate = ex ∧ rec.declarationdate = decl ∧ rec.dividend_dps = dps) ∧
      (divData symbol dateStr = none →
          Dividend.construct divData st dateStr symbol amount amount_ps source
            = .error "MissingData") := by
  intro divData st dateStr symbol amount amount_ps source
  constructor
  · intro ex decl dps rec st2 hlook hok
    rcases amount with _ | a <;> rcases amount_ps with _ | b <;>
      simp only [Dividend.construct, get_dividend, hlook, PositiveAmount.make,
                 Bind.bind, Except.bind, pure, Except.pure] at hok <;>
      (try split_ifs at hok) <;>
      simp at hok <;>
      (obtain ⟨hrec, hst⟩ := hok; subst hrec; exact ⟨rfl, rfl, rfl⟩)
  · intro hnone
    simp [Dividend.construct, get_dividend, hnone, Bind.bind, Except.bind]

/-- A concrete dividend table for the C4 witness: CSCO on 2022-10-26 has
ex-date 2022-10-04, declaration date 2022-09-08 and 0.38 per share. -/
def divDataTest : String → String → Option (String × String × Rat) :=
  fun symbol dateStr =>
    if symbol = "CSCO" then
      if dateStr = "2022-10-26" then some ("2022-10-04", "2022-09-08", 38 / 100)
      else none
    else none

/-- The Dividend record the C4 witness construction produces. -/
def dividendRecTest : Dividend :=
  { date := "2022-10-26", symbol := "CSCO", amount := none, amount_ps := none,
    source := "test", id := "DIVIDEND 2022-10-26:1",
    exdate := "2022-10-04", declarationdate := "2022-09-08",
    dividend_dps := 38 / 100 }

/-- The id state after the C4 witness construction. -/
def dividendStTest : IdState :=
  ⟨fun k => if k = "test" ++ "2022-10-26" then 1 else 0⟩

/-- Witness for C4: the lookup for CSCO on 2022-10-26 succeeds and its
triple is stored on the constructed record; the lookup for MSFT finds no
data and construction fails with MissingData. -/
theorem c4_dividend_enrichment_witness :
    (dividendRecTest.exdate = "2022-10-04" ∧
     dividendRecTest.declarationdate = "2022-09-08" ∧
     dividendRecTest.dividend_dps = 38 / 100) ∧
    Dividend.construct divDataTest IdState.initial "2022-10-26" "MSFT" none none "test"
      = .error "MissingData" :=
  ⟨(c4_dividend_enrichment divDataTest IdState.initial "2022-10-26" "CSCO"
      none none "test").1 "2022-10-04" "2022-09-08" (38 / 100)
      dividendRecTest dividendStTest rfl rfl,
   (c4_dividend_enrichment divDataTest IdState.initial "2022-10-26" "MSFT"
      none none "test").2 rfl⟩

/-- C5: the legacy unpickler permits exactly four (module, name) pairs —
the ESPPData holder under its two historical module paths, datetime.date,
and the codecs encode helper — and every other pair fails with the Denied
error instead of constructing anything. -/
theorem c5_find_class_allowlist :
    ∀ module name : String,
      ((∃ c, find_class module name = .ok c) ↔
        ((module = "espp.esppdata" ∨ module = "esppdata") ∧ name = "ESPPData") ∨
        (module = "datetime" ∧ name = "date") ∨
        (module = "_codecs" ∧ name = "encode")) ∧
      ((∃ c, find_class module name = .ok c) ∨
        find_class module name
          = .error ("module " ++ module ++ " name " ++ name ++ " is denied")) := by
  intro module name
  unfold find_class
  split_ifs with h1 h2 h3 h4
  · exact ⟨⟨fun _ => Or.inl ⟨Or.inl h1.1, h1.2⟩, fun _ => ⟨.esppData, rfl⟩⟩,
      Or.inl ⟨.esppData, rfl⟩⟩
  · exact ⟨⟨fun _ => Or.inl ⟨Or.inr h2.1, h2.2⟩, fun _ => ⟨.esppData, rfl⟩⟩,
      Or.inl ⟨.esppData, rfl⟩⟩
  · exact ⟨⟨fun _ => Or.inr (Or.inl h3), fun _ => ⟨.dateClass, rfl⟩⟩,
      Or.inl ⟨.dateClass, rfl⟩⟩
  · exact ⟨⟨fun _ => Or.inr (Or.inr h4), fun _ => ⟨.codecsEncode, rfl⟩⟩,
      Or.inl ⟨.codecsEncode, rfl⟩⟩
  · refine ⟨⟨fun ⟨c, hc⟩ => absurd hc (by simp), fun hr => ?_⟩, Or.inr rfl⟩
    rcases hr with ⟨hm, hn⟩ | h | h
    · rcases hm with hm | hm
      · exact absurd ⟨hm, hn⟩ h1
      · exact absurd ⟨hm, hn⟩ h2
    · exact absurd h h3
    · exact absurd h h4

/-- C6: a legacy TRANS record with quantity 0 produces no output
transaction and emits a warning; a TRANS record with nonzero quantity
produces exactly one SELL record with `qty = -n` and fee amount `-fee`. -/
theorem c6_trans_zero_qty :
    ∀ (getCurrency : String → String → Rat) (record : TransRecord),
      (record.n = 0 →
        (do_trans getCurrency record).1 = [] ∧
        (do_trans getCurrency record).2 = ["Zero quantity for sale, ignoring it"]) ∧
      (record.n ≠ 0 →
        ∃ r, (do_trans getCurrency record).1 = [r] ∧
          (do_trans getCurrency record).2 = [] ∧
          r.typeStr = "SELL" ∧ r.symbol = "CSCO" ∧
          r.qty = -record.n ∧
          r.fee.value = -record.fee ∧
          r.fee.nok_value = getCurrency "USD" record.date * -record.fee ∧
          r.amount.value = record.price * record.n) := by
  intro getCurrency record
  constructor
  · intro h0
    constructor <;> simp [do_trans, h0]
  · intro hne
    refine ⟨{ date := record.date, typeStr := "SELL", symbol := "CSCO",
              qty := -record.n, description := "",
              fee := add_amount getCurrency record.date "USD" (-record.fee),
              amount := add_amount getCurrency record.date "USD"
                          (record.price * record.n) },
            ?_, ?_, rfl, rfl, rfl, rfl, rfl, rfl⟩ <;>
      simp [do_trans, hne]

/-- Witness for C6: a zero-quantity TRANS record is skipped with a warning,
and one with n = 2, fee = 1, price = 30 yields exactly one SELL with
qty = -2 and fee value -1. -/
theorem c6_trans_zero_qty_witness :
    ((do_trans (fun _ _ => 10) ⟨"2022-01-01", 1, 0, 30⟩).1 = [] ∧
     (do_trans (fun _ _ => 10) ⟨"2022-01-01", 1, 0, 30⟩).2
       = ["Zero quantity for sale, ignoring it"]) ∧
    (∃ r, (do_trans (fun _ _ => 10) ⟨"2022-01-01", 1, 2, 30⟩).1 = [r] ∧
      (do_trans (fun _ _ => 10) ⟨"2022-01-01", 1, 2, 30⟩).2 = [] ∧
      r.typeStr = "SELL" ∧ r.symbol = "CSCO" ∧
      r.qty = -(2 : Rat) ∧
      r.fee.value = -(1 : Rat) ∧
      r.fee.nok_value = (fun (_ _ : String) => (10 : Rat)) "USD" "2022-01-01" * -(1 : Rat) ∧
      r.amount.value = (30 : Rat) * 2) :=
  ⟨(c6_trans_zero_qty (fun _ _ => 10) ⟨"2022-01-01", 1, 0, 30⟩).1 rfl,
   (c6_trans_zero_qty (fun _ _ => 10) ⟨"2022-01-01", 1, 2, 30⟩).2 (by norm_num)⟩

/-- C7: when the tax computation inside the upload endpoint fails with any
error, the endpoint answers with status 500 and a detail field carrying the
error text; when it succeeds, the endpoint returns the fully populated
response built from the computed report, holdings and summary — never a
partial one. -/
theorem c7_http_failure_isolation :
    ∀ (R H S : Type) (taxResult : Except String (R × H × S)),
      (∀ e, taxResult = .error e →
        create_files taxResult = .error { status_code := 500, detail := e }) ∧
      (∀ report holdings summary, taxResult = .ok (report, holdings, summary) →
        create_files taxResult
          = .ok { holdings := holdings, tax_report := report, summary := summary }) := by
  intro R H S taxResult
  constructor
  · intro e he
    subst he
    rfl
  · intro report holdings summary hok
    subst hok
    rfl

/-- Witness for C7 at concrete inputs: a failing computation gives the 500
response with the error text as detail; a successful one gives the full
ok response. -/
theorem c7_http_failure_isolation_witness :
    create_files (Except.error "boom" : Except String (String × String × String))
      = .error { status_code := 500, detail := "boom" } ∧
    create_files (Except.ok ("report", "holdings", "summary")
        : Except String (String × String × String))
      = .ok { holdings := "holdings", tax_report := "report", summary := "summary" } :=
  ⟨(c7_http_failure_isolation String String String (.error "boom")).1 "boom" rfl,
   (c7_http_failure_isolation String String String
      (.ok ("report", "holdings", "summary"))).2 "report" "holdings" "summary" rfl⟩

/-- C8 counterexample: not every member of the Entry union carries a
`source` and an `id` — the Cashadjust variant declares neither field, so a
concrete Cashadjust entry refutes the universal claim. -/
theorem c8_counterexample :
    ¬ ∀ e : Entry, (Entry.entrySource e).isSome = true ∧ (Entry.entryId e).isSome = true := by
  intro h
  have hc := h (.cashadjust { date := "2022-01-01", amount := Amount.mkEmpty,
                              description := "adjustment" })
  simp [Entry.entrySource] at hc

/-- C8 amended: every member of the Entry union carries a type tag from the
closed eleven-member enumeration and an effective date (the total functions
`Entry.entryType` and `Entry.entryDate`), and every member EXCEPT
Cashadjust also carries a `source` string and a synthesized `id`;
Cashadjust declares neither. -/
theorem c8_base_contract :
    ∀ e : Entry, Entry.isCashadjust e = false →
      (Entry.entrySource e).isSome = true ∧ (Entry.entryId e).isSome = true := by
  intro e he
  cases e <;> simp_all [Entry.entrySource, Entry.entryId, Entry.isCashadjust]

/-- A concrete Buy entry for the C8 witness. -/
def buyTest : Buy :=
  { date := "2022-01-01"
    symbol := "CSCO"
    qty := 1
    purchase_price := Amount.mkEmpty
    source := "test"
    id := "BUY 2022-01-01 1:1" }

/-- Witness for C8 at a concrete non-Cashadjust entry (a Buy). -/
theorem c8_base_contract_witness :
    (Entry.entrySource (.buy buyTest)).isSome = true ∧
    (Entry.entryId (.buy buyTest)).isSome = true :=
  c8_base_contract _ rfl

/-- C9: in `main` the boolean parameter `preheat_cache` shadows the
imported `preheat_cache` function, so `if preheat_cache: preheat_cache()`
calls the bool when the flag is set and raises TypeError instead of running
the reference-service preheat; with the flag unset nothing runs.  In
particular no flag value ever invokes `espp2.main.preheat_cache`. -/
theorem c9_preheat_shadowing :
    preheatStep true = .error "TypeError: bool object is not callable" ∧
    preheatStep false = .ok none ∧
    ∀ b : Bool, preheatStep b ≠ .ok (some "espp2.main.preheat_cache") := by
  refine ⟨rfl, rfl, ?_⟩
  intro b
  cases b <;>
    simp [preheatStep, lookupName, localScope, globalScope, callValue, Except.map]

end ESPP2
